import Mathlib

/-!
# Notifications page (`frontend/src/pages/notifications.page.jsx`)

A shallow embedding of the `Notifications` React component: the values held in its
`useState` cells, the shared `UserContext` state and the session storage it writes, its event
handlers, the callbacks of its backend requests and timers, its effects and its render
function.

Conventions of the embedding:

* A handler that runs synchronously on a user event reads the current render, so it is a
  function of the current `World`.
* A callback that runs later (`.then`, `.catch`, `.finally`, `setTimeout`) takes two states:
  `cl`, the values captured by the closure of the render that created it, and `w`, the world
  it runs in. A plain setter call `setX(v)` overwrites the cell with a value computed from
  `cl`; a functional setter call `setX(prev => ...)` reads the cell of `w`.
* What leaves the component (requests, dialogs, toasts, console output) is appended to the
  `effects` log of the `World`; what the user or the backend answers is an argument.
-/

namespace Notifications

/-! ## Data model -/

/-- The `reply_info` block written by `submitReply`. -/
structure ReplyInfo where
  username : String
  timestamp : String
deriving DecidableEq, Repr

/-- The `personal_info` of the user a notification comes from. -/
structure PersonalInfo where
  fullname : Option String
  profile_img : Option String
deriving DecidableEq, Repr

/-- The `blog` a notification refers to. -/
structure Blog where
  blog_id : String
  title : String
deriving DecidableEq, Repr

/-- One notification object. `comment` is `notification.comment.comment` and `reply` is
`notification.reply.reply`; `just_replied`, `reply_text` and `reply_info` are the fields that
only `submitReply` adds (absent, hence falsy, on what the backend sends). -/
structure Notification where
  _id : String
  type : String
  read : Bool
  createdAt : String
  user : Option PersonalInfo
  blog : Option Blog
  comment : Option String
  reply : Option String
  just_replied : Bool
  reply_text : Option String
  reply_info : Option ReplyInfo
deriving DecidableEq, Repr

/-- The object held in the `notifications` cell. `results` and `totalDocs` are the two
properties this file reads and writes; `cursor` stands for what else the pagination helper
stores on the object (its page cursor), which the spreads `...notifications` carry along and
the literal `{ results: [], totalDocs: 0 }` does not have. -/
structure PageResult where
  results : List Notification
  totalDocs : Int
  cursor : Option Int
deriving DecidableEq, Repr

/-- The literal `{ results: [], totalDocs: 0 }`. -/
def emptyPage : PageResult := { results := [], totalDocs := 0, cursor := none }

/-- The `userAuth` object of the user context, as far as this page reads or writes it.
An absent property is `none` (`false` for the flag). -/
structure UserAuth where
  access_token : Option String
  username : Option String
  new_notification_available : Bool
deriving DecidableEq, Repr

/-- The mutable state the page works on: its ten `useState` cells, the shared `userAuth`
state of the user context, and the session storage. -/
structure ViewState where
  filter : String
  notifications : Option PageResult
  page : Int
  loading : Bool
  error : Option String
  deletedCount : Nat
  allNotificationsDeleted : Bool
  replyingTo : Option String
  replyText : String
  replyLoading : Bool
  userAuth : UserAuth
  sessionStorage : List (String × String)
deriving DecidableEq, Repr

/-- The initial values of the `useState` cells (lines 12-23), for a given context and
session storage. -/
def initialState (userAuth : UserAuth) (storage : List (String × String)) : ViewState :=
  { filter := "all", notifications := none, page := 1, loading := false, error := none,
    deletedCount := 0, allNotificationsDeleted := false, replyingTo := none, replyText := "",
    replyLoading := false, userAuth := userAuth, sessionStorage := storage }

/-- The constant `filters` (line 26). -/
def filters : List String := ["all", "like", "comment", "reply"]

/-- The body of an `axios.post`, by route. -/
inductive Request where
  | notifications (page : Int) (filter : String) (deletedDocCount : Nat)
  | deleteNotification (notification_id : String)
  | deleteAllNotifications (filter : String)
  | readAllNotifications
deriving DecidableEq, Repr

/-- What the page does to the outside. -/
inductive Effect where
  | post (request : Request) (bearer : Option String)
  | confirm (message : String)
  | alert (message : String)
  | toast (message : String) (type : String) (autoRemove : Bool)
  | removeToast (message : String)
  | consoleError (message : String)
  | startTimer (ms : Nat)
  | focusReplyInput
deriving DecidableEq, Repr

/-- Whether the effect is a request to the `/notifications` route. -/
def Effect.isFetchRequest : Effect → Bool
  | .post (.notifications _ _ _) _ => true
  | _ => false

/-- The state together with the log of effects, oldest first. -/
structure World where
  state : ViewState
  effects : List Effect
deriving DecidableEq, Repr

/-- An `err` caught from a request: `response` is `err.response.status` when the error
carries a response, and `none` when it does not (no answer from the server). -/
structure AxiosError where
  response : Option Nat
deriving DecidableEq, Repr

/-- How the request of `fetchNotifications` settles: it resolves with `data.notifications`
(`none` when the property is absent), or it rejects. -/
inductive FetchOutcome where
  | resolved (data : Option (List Notification))
  | rejected (err : AxiosError)
deriving DecidableEq, Repr

/-- The argument object of the pagination helper `filterPaginationData` (lines 55-62);
`data_to_send` is the filter. -/
structure FilterPaginationArgs where
  state : Option PageResult
  data : List Notification
  page : Int
  countRoute : String
  data_to_send : String
  user : Option String
deriving DecidableEq, Repr

/-- The pagination helper of `../common/filter-pagination-data`, which is not part of this
file, is a parameter of the model: it resolves with the object to store, or rejects. -/
abbrev FilterPaginationData := FilterPaginationArgs → Except AxiosError (Option PageResult)

/-! ## Setters -/

namespace World

/-- Apply a state update. -/
def update (f : ViewState → ViewState) (w : World) : World := { w with state := f w.state }

/-- Append an effect to the log. -/
def emit (e : Effect) (w : World) : World := { w with effects := w.effects ++ [e] }

end World

def setFilter (v : String) : World → World := World.update fun s => { s with filter := v }

def setNotifications (v : Option PageResult) : World → World :=
  World.update fun s => { s with notifications := v }

def setPage (v : Int) : World → World := World.update fun s => { s with page := v }

/-- The functional form `setPage(prev => f(prev))`. -/
def setPageWith (f : Int → Int) : World → World :=
  World.update fun s => { s with page := f s.page }

def setLoading (v : Bool) : World → World := World.update fun s => { s with loading := v }

def setError (v : Option String) : World → World := World.update fun s => { s with error := v }

def setDeletedCount (v : Nat) : World → World :=
  World.update fun s => { s with deletedCount := v }

/-- The functional form `setDeletedCount(prev => f(prev))`. -/
def setDeletedCountWith (f : Nat → Nat) : World → World :=
  World.update fun s => { s with deletedCount := f s.deletedCount }

def setAllNotificationsDeleted (v : Bool) : World → World :=
  World.update fun s => { s with allNotificationsDeleted := v }

def setReplyingTo (v : Option String) : World → World :=
  World.update fun s => { s with replyingTo := v }

def setReplyText (v : String) : World → World := World.update fun s => { s with replyText := v }

def setReplyLoading (v : Bool) : World → World :=
  World.update fun s => { s with replyLoading := v }

/-- Modelled from the spec: the user context of `../App`, which is not part of this file,
is the shared authenticated-user state together with its update channel `setUserAuth` (spec
sections 4.2, 6 and 9: a global mutable context whose unread flag the page clears). The
provider passes the setter, so the guards `if (setUserAuth)` of this page are taken. -/
def setUserAuthProvided : Bool := true

/-- The call `setUserAuth(prev => f(prev))` on the shared `userAuth` state. -/
def setUserAuth (f : UserAuth → UserAuth) : World → World :=
  World.update fun s => { s with userAuth := f s.userAuth }

/-- The call `sessionStorage.setItem(key, value)`: the entry of `key` is replaced. -/
def sessionSetItem (key value : String) : World → World :=
  World.update fun s =>
    { s with sessionStorage := (key, value) :: s.sessionStorage.filter fun kv => kv.1 ≠ key }

/-- The call `sessionStorage.getItem(key)`. -/
def sessionGetItem (key : String) (s : ViewState) : Option String :=
  (s.sessionStorage.find? fun kv => kv.1 = key).map Prod.snd

/-- The helper `showToast(message, type = "success", autoRemove = true)` (lines 340-359). -/
def showToast (message : String) (type : String) (autoRemove : Bool) : World → World :=
  World.emit (.toast message type autoRemove)

/-- Truthiness of a string that may be absent: defined and not empty. -/
def truthy (v : Option String) : Bool :=
  match v with
  | some x => x ≠ ""
  | none => false

/-- The destructuring default `username = "Dishang18"` (line 10). -/
def username (s : ViewState) : String := s.userAuth.username.getD "Dishang18"

/-! ## Filter switch and effects -/

/-- The body of `fetchNotifications({ page, deletedDocCount })` up to the request
(lines 28-47). -/
def fetchNotifications (page : Int) (deletedDocCount : Nat) (w : World) : World :=
  if w.state.allNotificationsDeleted then
    w |> setNotifications (some emptyPage) |> setLoading false
  else
    w |> setLoading true |> setError none
      |> World.emit (.post (.notifications page w.state.filter deletedDocCount)
          w.state.userAuth.access_token)

/-- The effect on `[access_token, filter, page, deletedCount]` (lines 81-85). -/
def fetchEffect (w : World) : World :=
  if truthy w.state.userAuth.access_token then
    fetchNotifications w.state.page w.state.deletedCount w
  else w

/-- The effect on `[filter]` (lines 87-92). -/
def filterEffect (w : World) : World :=
  if w.state.filter ≠ "" then setAllNotificationsDeleted false w else w

/-- The handler `handleFilter` (lines 101-108); `innerHTML` is the text of the clicked
button. -/
def handleFilter (innerHTML : String) (w : World) : World :=
  w |> setFilter innerHTML |> setNotifications none |> setPage 1 |> setDeletedCount 0
    |> setAllNotificationsDeleted false

/-! ## Fetch callbacks -/

/-- The `.then` callback of the fetch (lines 48-65). A rejection of the awaited helper
rejects the callback, and the `.catch` callback then receives it. -/
def fetchNotificationsThen (filterPaginationData : FilterPaginationData) (cl : ViewState)
    (page : Int) (data : Option (List Notification)) (w : World) : Except AxiosError World :=
  match data with
  | none => .ok (w |> setAllNotificationsDeleted true |> setNotifications (some emptyPage))
  | some data =>
    if data.length = 0 then
      .ok (w |> setAllNotificationsDeleted true |> setNotifications (some emptyPage))
    else
      match filterPaginationData
          { state := cl.notifications, data := data, page := page,
            countRoute := "/all-notification-count", data_to_send := cl.filter,
            user := cl.userAuth.access_token } with
      | .ok formatedData => .ok (setNotifications formatedData w)
      | .error err => .error err

/-- The `.catch` callback of the fetch (lines 66-75). -/
def fetchNotificationsCatch (cl : ViewState) (err : AxiosError) (w : World) : World :=
  let w := World.emit (.consoleError "err") w
  if err.response = some 500 ∧ cl.deletedCount > 0 then
    w |> setAllNotificationsDeleted true |> setNotifications (some emptyPage)
  else
    setError (some "Failed to fetch notifications. Please try again later.") w

/-- The `.finally` callback of the fetch (lines 76-78). -/
def fetchNotificationsFinally (w : World) : World := setLoading false w

/-- The promise chain `.then(...).catch(...).finally(...)` of one request, from the answer
of the backend to the end of `.finally`. -/
def fetchNotificationsSettled (filterPaginationData : FilterPaginationData) (cl : ViewState)
    (page : Int) (outcome : FetchOutcome) (w : World) : World :=
  fetchNotificationsFinally <|
    match outcome with
    | .resolved data =>
      match fetchNotificationsThen filterPaginationData cl page data w with
      | .ok w1 => w1
      | .error err => fetchNotificationsCatch cl err w
    | .rejected err => fetchNotificationsCatch cl err w

/-! ## Delete one -/

/-- The handler `deleteNotification` up to the request (lines 111-123); `confirmed` is the
answer to `window.confirm`. -/
def deleteNotification (notification_id : String) (confirmed : Bool) (w : World) : World :=
  let w := World.emit (.confirm "Are you sure you want to delete this notification?") w
  if !confirmed then w
  else World.emit (.post (.deleteNotification notification_id) w.state.userAuth.access_token) w

/-- The `.then` callback of the delete request (lines 124-151). -/
def deleteNotificationThen (cl : ViewState) (notification_id : String) (w : World) : World :=
  match cl.notifications with
  | some notifications =>
    let updatedResults := notifications.results.filter fun n => n._id ≠ notification_id
    let w := if updatedResults.length = 0 then setAllNotificationsDeleted true w else w
    let w := setNotifications
      (some { notifications with
        results := updatedResults
        totalDocs := if notifications.totalDocs > 0 then notifications.totalDocs - 1 else 0 }) w
    let w := setDeletedCountWith (fun prev => prev + 1) w
    let w := showToast "Notification deleted successfully" "success" true w
    if updatedResults.length = 0 ∧ cl.page > 1 then setPageWith (fun prev => prev - 1) w else w
  | none => w

/-- The `.catch` callback of the delete request (lines 152-155). -/
def deleteNotificationCatch (w : World) : World :=
  w |> World.emit (.consoleError "Error deleting notification:")
    |> World.emit (.alert "Failed to delete notification. Please try again.")

/-- A whole delete-one: the click, the answer to the dialog and, when a request went out,
its callback, run on the render that handled the click. -/
def deleteNotificationSettled (notification_id : String) (confirmed resolved : Bool)
    (w : World) : World :=
  let w1 := deleteNotification notification_id confirmed w
  if !confirmed then w1
  else if resolved then deleteNotificationThen w.state notification_id w1
  else deleteNotificationCatch w1

/-! ## Delete all -/

/-- The handler `deleteAllNotifications` up to the request (lines 159-173). -/
def deleteAllNotifications (confirmed : Bool) (w : World) : World :=
  let w := World.emit (.confirm "Are you sure you want to delete all notifications?") w
  if !confirmed then w
  else
    w |> showToast "Deleting all notifications..." "info" false
      |> World.emit (.post (.deleteAllNotifications w.state.filter)
          w.state.userAuth.access_token)

/-- The `.then` callback of the delete-all request (lines 174-196). -/
def deleteAllNotificationsThen (w : World) : World :=
  let w := w |> setAllNotificationsDeleted true |> setNotifications (some emptyPage)
    |> setPage 1 |> setDeletedCount 0
    |> World.emit (.removeToast "Deleting all notifications...")
    |> showToast "All notifications deleted successfully" "success" true
  if setUserAuthProvided then
    setUserAuth (fun prev => { prev with new_notification_available := false }) w
  else w

/-- The `.catch` callback of the delete-all request (lines 197-221). -/
def deleteAllNotificationsCatch (w : World) : World :=
  let w := w |> World.emit (.consoleError "Error deleting all notifications:")
    |> World.emit (.removeToast "Deleting all notifications...")
    |> setAllNotificationsDeleted true |> setNotifications (some emptyPage) |> setPage 1
    |> setDeletedCount 0
    |> showToast "All notifications deleted (UI only)" "success" true
  if setUserAuthProvided then
    setUserAuth (fun prev => { prev with new_notification_available := false }) w
  else w

/-- A whole delete-all: the click, the answer to the dialog and, when a request went out,
its callback. -/
def deleteAllNotificationsSettled (confirmed resolved : Bool) (w : World) : World :=
  let w1 := deleteAllNotifications confirmed w
  if !confirmed then w1
  else if resolved then deleteAllNotificationsThen w1
  else deleteAllNotificationsCatch w1

/-! ## Reply -/

/-- The code points that `String.prototype.trim` strips: the ECMAScript white space and
line terminator characters. -/
def isTrimmed (c : Char) : Bool :=
  let n := c.toNat
  n = 0x09 || n = 0x0A || n = 0x0B || n = 0x0C || n = 0x0D || n = 0x20 || n = 0xA0
    || n = 0x1680 || (0x2000 ≤ n && n ≤ 0x200A) || n = 0x2028 || n = 0x2029 || n = 0x202F
    || n = 0x205F || n = 0x3000 || n = 0xFEFF

/-- The method `trim()`: white space is dropped from both ends. -/
def trim (text : String) : String :=
  String.mk ((text.data.dropWhile isTrimmed).reverse.dropWhile isTrimmed).reverse

/-- The handler `handleReply` (lines 225-234): it toggles the reply form of a card. -/
def handleReply (notification : Notification) (w : World) : World :=
  if w.state.replyingTo = some notification._id then
    w |> setReplyingTo none |> setReplyText ""
  else
    w |> setReplyingTo (some notification._id) |> setReplyText ""

/-- The callback that `submitReply` hands to `setTimeout` (lines 245-280). Reading
`notifications.results` throws when the cell holds `null`; the `catch` block reports it. -/
def submitReplyTimeout (cl : ViewState) (notification : Notification) (w : World) : World :=
  setReplyLoading false <|
    match cl.notifications with
    | some notifications =>
      let updatedResults := notifications.results.map fun n =>
        if n._id = notification._id then
          { n with
            just_replied := true
            reply_text := some cl.replyText
            reply_info := some { username := username cl, timestamp := "2025-04-27 20:24:57" } }
        else n
      w |> setNotifications (some { notifications with results := updatedResults })
        |> setReplyingTo none |> setReplyText ""
        |> showToast "Reply added to UI (Note: Backend integration pending)" "success" true
    | none =>
      w |> World.emit (.consoleError "Error updating UI:")
        |> showToast "Failed to update UI" "error" true

/-- The handler `submitReply` up to the timer (lines 237-245). -/
def submitReply (w : World) : World :=
  if trim w.state.replyText = "" then w
  else w |> setReplyLoading true |> World.emit (.startTimer 500)

/-- A whole reply: the click on the post button and, when the timer was started, its
callback, run on the render that handled the click. -/
def submitReplySettled (notification : Notification) (w : World) : World :=
  if trim w.state.replyText = "" then submitReply w
  else submitReplyTimeout w.state notification (submitReply w)

/-! ## Mark all as read -/

/-- The helper `updateUIAfterMarkingRead` (lines 313-337). -/
def updateUIAfterMarkingRead (cl : ViewState) (w : World) : World :=
  let w :=
    match cl.notifications with
    | some notifications =>
      let updatedResults := notifications.results.map fun notification =>
        { notification with read := true }
      setNotifications (some { notifications with results := updatedResults }) w
    | none => w
  let w :=
    if setUserAuthProvided then
      setUserAuth (fun prevState => { prevState with new_notification_available := false }) w
    else w
  sessionSetItem "new_notification_available" "false" w

/-- The handler `markAllAsRead` up to the request (lines 284-295). -/
def markAllAsRead (w : World) : World :=
  World.emit (.post .readAllNotifications w.state.userAuth.access_token) w

/-- The `.then` callback of the mark-all-read request (lines 296-299). -/
def markAllAsReadThen (cl : ViewState) (w : World) : World :=
  w |> updateUIAfterMarkingRead cl |> showToast "All notifications marked as read" "success" true

/-- The `.catch` callback of the mark-all-read request (lines 300-305). -/
def markAllAsReadCatch (cl : ViewState) (w : World) : World :=
  w |> World.emit (.consoleError "Error from server, falling back to UI update:")
    |> updateUIAfterMarkingRead cl
    |> showToast "All notifications marked as read (UI only)" "success" true

/-- The outer `catch` block of `markAllAsRead` (lines 306-309), which runs when building the
request throws before any promise exists. -/
def markAllAsReadThrown (w : World) : World :=
  w |> World.emit (.consoleError "Error:")
    |> showToast "Failed to mark notifications as read" "error" true

/-- A whole mark-all-as-read: the click and the callback of its request, run on the render
that handled the click. -/
def markAllAsReadSettled (resolved : Bool) (w : World) : World :=
  if resolved then markAllAsReadThen w.state (markAllAsRead w)
  else markAllAsReadCatch w.state (markAllAsRead w)

/-! ## Pagination controls -/

/-- The click handler of the Previous button (line 559). -/
def previousPage (w : World) : World := setPageWith (fun p => max (p - 1) 1) w

/-- The click handler of the Next button (line 566). -/
def nextPage (w : World) : World := setPageWith (fun p => p + 1) w

/-! ## Render -/

/-- The reply form of a card (lines 508-531). -/
structure ReplyForm where
  value : String
  postDisabled : Bool
  postLabel : String
deriving DecidableEq, Repr

/-- What one notification card shows (lines 430-551). The date is kept as the stored
`createdAt`; its locale formatting is not modelled. -/
structure Card where
  border : String
  deleteTarget : String
  unreadDot : Bool
  profile_img : String
  fullname : String
  action : Option String
  blogLink : Option Blog
  commentQuote : Option String
  replyButton : Option String
  replyQuote : Option String
  date : String
  replyForm : Option ReplyForm
  yourReply : Option (Option String)
deriving DecidableEq, Repr

/-- One filter button (lines 396-404); `active` is the `btn-dark` highlight. -/
structure Tab where
  label : String
  active : Bool
deriving DecidableEq, Repr

/-- What stands below the filter tabs (lines 409-586): the loader, the empty state, or the
action buttons, the cards and the pagination controls. -/
inductive Body where
  | loader
  | emptyState
  | list (cards : List Card) (previousDisabled nextDisabled : Bool)
deriving DecidableEq, Repr

/-- The rendered page. -/
structure View where
  tabs : List Tab
  error : Option String
  body : Body
deriving DecidableEq, Repr

/-- The card of one notification (lines 430-551). -/
def renderCard (s : ViewState) (notification : Notification) : Card :=
  { border :=
      if notification.just_replied then "border-green-500"
      else if notification.read then "border-gray-100 dark:border-slate-700 opacity-75"
      else "border-gray-100 dark:border-slate-700"
    deleteTarget := notification._id
    unreadDot := !notification.read
    profile_img :=
      match notification.user.bind fun u => u.profile_img with
      | some img => if img ≠ "" then img else "/default-profile.png"
      | none => "/default-profile.png"
    fullname :=
      match notification.user.bind fun u => u.fullname with
      | some name => if name ≠ "" then name else "User"
      | none => "User"
    action :=
      if notification.type = "like" then some "liked your post"
      else if notification.type = "comment" then some "commented on your post"
      else if notification.type = "reply" then some "replied to your comment"
      else none
    blogLink := notification.blog
    commentQuote := if notification.type = "comment" then notification.comment else none
    replyButton :=
      if notification.comment.isSome ∧ notification.type = "comment" then
        some (if s.replyingTo = some notification._id then "Cancel" else "Reply")
      else none
    replyQuote := if notification.type = "reply" then notification.reply else none
    date := notification.createdAt
    replyForm :=
      if s.replyingTo = some notification._id then
        some { value := s.replyText
               postDisabled := s.replyLoading || trim s.replyText = ""
               postLabel := if s.replyLoading then "Posting..." else "Post Reply" }
      else none
    yourReply := if notification.just_replied then some notification.reply_text else none }

/-- The component body `return (...)` (lines 391-588). -/
def render (s : ViewState) : View :=
  { tabs := filters.map fun filterName =>
      { label := filterName, active := s.filter = filterName }
    error := if truthy s.error then s.error else none
    body :=
      match s.notifications with
      | none => .loader
      | some notifications =>
        if notifications.results.length > 0 then
          .list (notifications.results.map (renderCard s)) (s.page = 1)
            (notifications.results.length < 10)
        else .emptyState }

/-- Whether the rendered page holds a reply textarea, so that `replyInputRef.current` is
set. -/
def replyInputMounted (s : ViewState) : Bool :=
  match (render s).body with
  | .list cards _ _ => cards.any fun c => c.replyForm.isSome
  | _ => false

/-- The effect on `[replyingTo]` (lines 94-99); `cl` is the render it belongs to, whose
textarea the ref points to. -/
def focusEffect (cl : ViewState) (w : World) : World :=
  if truthy cl.replyingTo ∧ replyInputMounted cl then World.emit .focusReplyInput w else w

/-! ## The page as a transition system -/

/-- The events of the page: what the user does, the late callbacks of requests and of the
reply timer, each with the closure `cl` it was created with, and a change of the shared
`userAuth` state made elsewhere in the application. The system does not restrict when an
event occurs or which closure a late callback holds, so every behaviour of the page is one
of its runs. -/
inductive Op where
  | filterClick (innerHTML : String)
  | previousClick
  | nextClick
  | deleteClick (notification_id : String) (confirmed : Bool)
  | deleteResponse (cl : ViewState) (notification_id : String) (resolved : Bool)
  | deleteAllClick (confirmed : Bool)
  | deleteAllResponse (resolved : Bool)
  | markAllAsReadClick
  | markAllAsReadResponse (cl : ViewState) (resolved : Bool)
  | replyClick (notification : Notification)
  | replyInput (value : String)
  | postReplyClick
  | replyTimer (cl : ViewState) (notification : Notification)
  | fetchResponse (cl : ViewState) (page : Int) (outcome : FetchOutcome)
  | userAuthChange (userAuth : UserAuth)
deriving DecidableEq, Repr

/-- Whether the event is a click on a filter tab. -/
def Op.isFilterSwitch : Op → Bool
  | .filterClick _ => true
  | _ => false

/-- The handler or callback that an event runs. -/
def handle (filterPaginationData : FilterPaginationData) (op : Op) (w : World) : World :=
  match op with
  | .filterClick innerHTML => handleFilter innerHTML w
  | .previousClick => previousPage w
  | .nextClick => nextPage w
  | .deleteClick notification_id confirmed => deleteNotification notification_id confirmed w
  | .deleteResponse cl notification_id resolved =>
    if resolved then deleteNotificationThen cl notification_id w else deleteNotificationCatch w
  | .deleteAllClick confirmed => deleteAllNotifications confirmed w
  | .deleteAllResponse resolved =>
    if resolved then deleteAllNotificationsThen w else deleteAllNotificationsCatch w
  | .markAllAsReadClick => markAllAsRead w
  | .markAllAsReadResponse cl resolved =>
    if resolved then markAllAsReadThen cl w else markAllAsReadCatch cl w
  | .replyClick notification => handleReply notification w
  | .replyInput value => setReplyText value w
  | .postReplyClick => submitReply w
  | .replyTimer cl notification => submitReplyTimeout cl notification w
  | .fetchResponse cl page outcome =>
    fetchNotificationsSettled filterPaginationData cl page outcome w
  | .userAuthChange userAuth => World.update (fun s => { s with userAuth := userAuth }) w

/-- The dependency array `[access_token, filter, page, deletedCount]` (line 85). -/
def fetchDeps (s : ViewState) : Option String × String × Int × Nat :=
  (s.userAuth.access_token, s.filter, s.page, s.deletedCount)

/-- The effects that run after a render: each one whose dependencies differ from those of
the previous render `prev`, in the order of their declaration. The effects of one render
share its closure; run in sequence they read the same values, as none of them reads a cell
that an earlier one writes. -/
def commit (prev : ViewState) (w : World) : World :=
  let cur := w.state
  let w := if fetchDeps prev ≠ fetchDeps cur then fetchEffect w else w
  let w := if prev.filter ≠ cur.filter then filterEffect w else w
  if prev.replyingTo ≠ cur.replyingTo then focusEffect cur w else w

/-- The first render: every effect runs. -/
def mount (userAuth : UserAuth) (storage : List (String × String)) : World :=
  { state := initialState userAuth storage, effects := [] }
    |> fetchEffect |> filterEffect |> focusEffect (initialState userAuth storage)

/-- One event: its handler, then the effects of the render that follows. -/
def step (filterPaginationData : FilterPaginationData) (w : World) (op : Op) : World :=
  commit w.state (handle filterPaginationData op w)

/-- A sequence of events, in order. -/
def run (filterPaginationData : FilterPaginationData) (w : World) (ops : List Op) : World :=
  ops.foldl (step filterPaginationData) w

/-! ## Sample data -/

/-- A comment notification with the given id and read flag. -/
def sampleNotification (id : String) (read : Bool) : Notification :=
  { _id := id, type := "comment", read := read, createdAt := "2025-04-27T20:24:57.000Z",
    user := some { fullname := some "Asha", profile_img := none },
    blog := some { blog_id := "b1", title := "First post" },
    comment := some "Nice post", reply := none,
    just_replied := false, reply_text := none, reply_info := none }

/-- A state on page 2 with two unread notifications loaded, one earlier deletion, the
terminal flag set and a reply being typed. -/
def sampleState : ViewState :=
  { filter := "comment"
    notifications := some
      { results := [sampleNotification "n1" false, sampleNotification "n2" false],
        totalDocs := 12, cursor := some 2 }
    page := 2, loading := false, error := none, deletedCount := 1,
    allNotificationsDeleted := true, replyingTo := some "n1", replyText := " thanks ",
    replyLoading := false,
    userAuth :=
      { access_token := some "token", username := some "reader",
        new_notification_available := true }
    sessionStorage := [("new_notification_available", "true")] }

/-- The sample state with an empty effect log. -/
def sampleWorld : World := { state := sampleState, effects := [] }

/-- The sample state with a single notification loaded. -/
def lastItemWorld : World :=
  { state := { sampleState with
      notifications := some
        { results := [sampleNotification "n1" false], totalDocs := 11, cursor := some 2 } }
    effects := [] }

/-- The sample state with the terminal flag not set: two notifications shown on page 2
after one deletion. -/
def browsingWorld : World :=
  { state := { sampleState with allNotificationsDeleted := false }, effects := [] }

/-- The scenario of the spec: filter "comment", page 1, no deletion, two items loaded. -/
def scenarioState : ViewState :=
  { sampleState with
    page := 1, deletedCount := 0, allNotificationsDeleted := false, replyingTo := none,
    replyText := "" }

/-- The sample state with a single notification loaded on page 2 and the terminal flag not
set. -/
def lastItemOpenWorld : World :=
  { state := { lastItemWorld.state with allNotificationsDeleted := false }, effects := [] }

/-- A signed-in user without unread notifications. -/
def readerAuth : UserAuth :=
  { access_token := some "token", username := some "reader",
    new_notification_available := false }

/-- A full first page: the ten notifications `n1` to `n10`. -/
def firstPage : List Notification :=
  ["n1", "n2", "n3", "n4", "n5", "n6", "n7", "n8", "n9", "n10"].map fun id =>
    sampleNotification id false

/-- A pagination helper for the sample runs: it merges the new page into the accumulated
list and keeps the total of the accumulated object. -/
def mergingHelper : FilterPaginationData := fun args =>
  match args.state with
  | some state =>
    .ok (some { state with results := state.results ++ args.data, cursor := some args.page })
  | none =>
    .ok (some { results := args.data, totalDocs := args.data.length, cursor := some args.page })

/-- A delete-one that settles before anything else happens: the click, confirmed, and the
resolved request, whose callback holds the render of the click. -/
def deleteNow (notification_id : String) (w : World) : World :=
  step mergingHelper (step mergingHelper w (.deleteClick notification_id true))
    (.deleteResponse w.state notification_id true)

/-- The page of `readerAuth` after it is mounted, the first page of ten arrives, Next is
clicked, and the notifications `n1` to `n9` are deleted one after the other while the
fetches of page 2 are still without answer. -/
def lastItemOnPageTwo : World :=
  ["n1", "n2", "n3", "n4", "n5", "n6", "n7", "n8", "n9"].foldl (fun w id => deleteNow id w)
    (run mergingHelper (mount readerAuth [])
      [.fetchResponse (initialState readerAuth []) 1 (.resolved (some firstPage)), .nextClick])

/-! ## Theorems -/

/-- C1: for every state and every filter label of the four tabs, `handleFilter` yields a
state whose filter is the label, whose page is 1, whose terminal flag is false, whose page
result is cleared and whose deletion counter is 0; the same holds after the effects of the
render that follows the click (among them the effect on the filter, which resets the flag). -/
theorem handleFilter_resets (filterPaginationData : FilterPaginationData) (w : World)
    (label : String) (hlabel : label ∈ filters) :
    ((handleFilter label w).state.filter = label ∧ (handleFilter label w).state.page = 1 ∧
      (handleFilter label w).state.allNotificationsDeleted = false ∧
      (handleFilter label w).state.notifications = none ∧
      (handleFilter label w).state.deletedCount = 0) ∧
    ((step filterPaginationData w (.filterClick label)).state.filter = label ∧
      (step filterPaginationData w (.filterClick label)).state.page = 1 ∧
      (step filterPaginationData w (.filterClick label)).state.allNotificationsDeleted = false ∧
      (step filterPaginationData w (.filterClick label)).state.notifications = none ∧
      (step filterPaginationData w (.filterClick label)).state.deletedCount = 0) ∧
    (filterEffect (handleFilter label w)).state.allNotificationsDeleted = false := by
  have hne : label ≠ "" := by
    rintro rfl
    simp [filters] at hlabel
  refine ⟨by simp [handleFilter, setFilter, setNotifications, setPage, setDeletedCount,
    setAllNotificationsDeleted, World.update], ?_, ?_⟩
  · simp only [step, handle, commit, fetchEffect, filterEffect, focusEffect, fetchNotifications,
      handleFilter, setFilter, setNotifications, setPage, setDeletedCount, setLoading, setError,
      setAllNotificationsDeleted, World.update, World.emit]
    split_ifs <;> simp_all
  · simp [filterEffect, handleFilter, setFilter, setNotifications, setPage, setDeletedCount,
      setAllNotificationsDeleted, World.update]

theorem handleFilter_resets_witness :
    "like" ∈ filters ∧ (handleFilter "like" sampleWorld).state.page = 1 ∧
      (handleFilter "like" sampleWorld).state.allNotificationsDeleted = false :=
  ⟨by decide,
    (handleFilter_resets (fun _ => .ok none) sampleWorld "like" (by decide)).1.2.1,
    (handleFilter_resets (fun _ => .ok none) sampleWorld "like" (by decide)).1.2.2.1⟩

/-- C2: a confirmed delete-all ends in the same state whether the request resolves or
rejects: terminal flag true, page result `{ results: [], totalDocs: 0 }`, page 1, deletion
counter 0 and the global `new_notification_available` flag false; the `.then` callback and
the `.catch` callback are equal as state transformers. -/
theorem deleteAllNotifications_success_eq_failure (w : World) :
    (deleteAllNotificationsSettled true true w).state =
        (deleteAllNotificationsSettled true false w).state ∧
    ((deleteAllNotificationsSettled true true w).state.allNotificationsDeleted = true ∧
      (deleteAllNotificationsSettled true true w).state.notifications = some emptyPage ∧
      (deleteAllNotificationsSettled true true w).state.page = 1 ∧
      (deleteAllNotificationsSettled true true w).state.deletedCount = 0 ∧
      (deleteAllNotificationsSettled true true w).state.userAuth.new_notification_available
        = false) ∧
    (fun v => (deleteAllNotificationsThen v).state) =
      (fun v => (deleteAllNotificationsCatch v).state) := by
  refine ⟨?_, ?_, ?_⟩
  · simp [deleteAllNotificationsSettled, deleteAllNotifications, deleteAllNotificationsThen,
      deleteAllNotificationsCatch, showToast, setAllNotificationsDeleted, setNotifications,
      setPage, setDeletedCount, setUserAuth, setUserAuthProvided, World.update, World.emit]
  · simp [deleteAllNotificationsSettled, deleteAllNotifications, deleteAllNotificationsThen,
      showToast, setAllNotificationsDeleted, setNotifications, setPage, setDeletedCount,
      setUserAuth, setUserAuthProvided, World.update, World.emit]
  · funext v
    simp [deleteAllNotificationsThen, deleteAllNotificationsCatch, showToast,
      setAllNotificationsDeleted, setNotifications, setPage, setDeletedCount, setUserAuth,
      setUserAuthProvided, World.update, World.emit]

/-- Reading a key of the session storage right after it was written gives the value
written. -/
theorem sessionGetItem_sessionSetItem (key value : String) (w : World) :
    sessionGetItem key (sessionSetItem key value w).state = some value := by
  simp [sessionGetItem, sessionSetItem, World.update]

/-- The state that `updateUIAfterMarkingRead` leaves when a page result is loaded. -/
theorem updateUIAfterMarkingRead_state (cl : ViewState) (w : World)
    (notifications : PageResult) (h : cl.notifications = some notifications) :
    (updateUIAfterMarkingRead cl w).state =
      { w.state with
        notifications := some
          { notifications with
            results := notifications.results.map fun n => { n with read := true } }
        userAuth := { w.state.userAuth with new_notification_available := false }
        sessionStorage := ("new_notification_available", "false") ::
          w.state.sessionStorage.filter fun kv => kv.1 ≠ "new_notification_available" } := by
  simp [updateUIAfterMarkingRead, h, setNotifications, setUserAuth, setUserAuthProvided,
    sessionSetItem, World.update]

/-- C3: for every state with a loaded page result, after `markAllAsRead` settles, on success
and on failure of the request alike, the page result is still loaded with as many items,
every item has `read = true` (so no rendered card shows the unread dot), the global
`new_notification_available` flag is false, and the session storage holds `"false"` under
`"new_notification_available"`. -/
theorem markAllAsRead_marks_every_item (w : World) (resolved : Bool)
    (notifications : PageResult) (h : w.state.notifications = some notifications) :
    (∃ updated, (markAllAsReadSettled resolved w).state.notifications = some updated ∧
      updated.results.length = notifications.results.length ∧
      ∀ n ∈ updated.results, n.read = true) ∧
    (∀ cards previousDisabled nextDisabled,
      (render (markAllAsReadSettled resolved w).state).body
          = .list cards previousDisabled nextDisabled →
        ∀ c ∈ cards, c.unreadDot = false) ∧
    (markAllAsReadSettled resolved w).state.userAuth.new_notification_available = false ∧
    sessionGetItem "new_notification_available" (markAllAsReadSettled resolved w).state
      = some "false" := by
  have hst : (markAllAsReadSettled resolved w).state =
      (updateUIAfterMarkingRead w.state w).state := by
    cases resolved <;>
      simp [markAllAsReadSettled, markAllAsRead, markAllAsReadThen, markAllAsReadCatch,
        showToast, updateUIAfterMarkingRead, h, setNotifications, setUserAuth,
        setUserAuthProvided, sessionSetItem, World.update, World.emit]
  rw [hst, updateUIAfterMarkingRead_state w.state w notifications h]
  refine ⟨⟨_, rfl, by simp, by simp⟩, ?_, rfl, by simp [sessionGetItem]⟩
  intro cards previousDisabled nextDisabled hbody c hc
  simp only [render] at hbody
  split_ifs at hbody with hlen
  · simp only [Body.list.injEq] at hbody
    obtain ⟨rfl, -, -⟩ := hbody
    simp only [List.map_map, List.mem_map, Function.comp] at hc
    obtain ⟨n, -, rfl⟩ := hc
    simp [renderCard]

theorem markAllAsRead_marks_every_item_witness :
    sampleWorld.state.notifications = some
        { results := [sampleNotification "n1" false, sampleNotification "n2" false],
          totalDocs := 12, cursor := some 2 } ∧
      (markAllAsReadSettled false sampleWorld).state.userAuth.new_notification_available
        = false :=
  ⟨rfl, (markAllAsRead_marks_every_item sampleWorld false _ rfl).2.2.1⟩

/-- The state that the `.then` callback of a delete leaves when the closure holds a page
result: the callback writes the flag, the page result, the counter and the page, and nothing
else. -/
theorem deleteNotificationThen_state (cl : ViewState) (notification_id : String) (w : World)
    (notifications : PageResult) (h : cl.notifications = some notifications) :
    (deleteNotificationThen cl notification_id w).state =
      { w.state with
        allNotificationsDeleted :=
          if (notifications.results.filter fun n => n._id ≠ notification_id).length = 0 then true
          else w.state.allNotificationsDeleted
        notifications := some
          { notifications with
            results := notifications.results.filter fun n => n._id ≠ notification_id
            totalDocs :=
              if notifications.totalDocs > 0 then notifications.totalDocs - 1 else 0 }
        deletedCount := w.state.deletedCount + 1
        page :=
          if (notifications.results.filter fun n => n._id ≠ notification_id).length = 0
              ∧ cl.page > 1 then w.state.page - 1
          else w.state.page } := by
  simp only [deleteNotificationThen, h]
  split_ifs <;>
    simp_all [setAllNotificationsDeleted, setNotifications, setDeletedCountWith, setPageWith,
      showToast, World.update, World.emit]

/-- The click of a confirmed delete leaves the state as it is. -/
theorem deleteNotification_state (notification_id : String) (confirmed : Bool) (w : World) :
    (deleteNotification notification_id confirmed w).state = w.state := by
  cases confirmed <;> simp [deleteNotification, World.emit]

/-- C4: for every state with a loaded page result and every notification id, a confirmed
delete-one whose request resolves leaves a page result whose list is the old list without
the items of that id, the others in their original order, whose `totalDocs` is one less than
before (0 when it was not positive), and a deletion counter one greater than before. -/
theorem deleteNotification_success (w : World) (notification_id : String)
    (notifications : PageResult) (h : w.state.notifications = some notifications) :
    (∃ updated,
      (deleteNotificationSettled notification_id true true w).state.notifications
        = some updated ∧
      updated.results = notifications.results.filter (fun n => n._id ≠ notification_id) ∧
      List.Sublist updated.results notifications.results ∧
      (∀ n, n ∈ updated.results ↔ n ∈ notifications.results ∧ n._id ≠ notification_id) ∧
      updated.totalDocs =
        (if 0 < notifications.totalDocs then notifications.totalDocs - 1 else 0)) ∧
    (deleteNotificationSettled notification_id true true w).state.deletedCount
      = w.state.deletedCount + 1 := by
  have hst : (deleteNotificationSettled notification_id true true w).state =
      (deleteNotificationThen w.state notification_id
        (deleteNotification notification_id true w)).state := by
    simp [deleteNotificationSettled]
  rw [hst, deleteNotificationThen_state _ _ _ notifications h, deleteNotification_state]
  refine ⟨⟨_, rfl, rfl, List.filter_sublist _, ?_, rfl⟩, rfl⟩
  intro n
  simp [List.mem_filter]

theorem deleteNotification_success_witness :
    sampleWorld.state.notifications = some
        { results := [sampleNotification "n1" false, sampleNotification "n2" false],
          totalDocs := 12, cursor := some 2 } ∧
      (deleteNotificationSettled "n1" true true sampleWorld).state.deletedCount
        = sampleWorld.state.deletedCount + 1 :=
  ⟨rfl, (deleteNotification_success sampleWorld "n1" _ rfl).2⟩

/-- C6: for every state and every notification id, a confirmed delete-one whose request
rejects leaves the whole state as it was (page result, page, deletion counter, terminal flag
and every other cell); what it adds is the dialog, the request, the console line and the
alert. -/
theorem deleteNotification_failure_unchanged (w : World) (notification_id : String) :
    (deleteNotificationSettled notification_id true false w).state = w.state ∧
    (deleteNotificationSettled notification_id true false w).effects =
      w.effects ++
        [.confirm "Are you sure you want to delete this notification?",
         .post (.deleteNotification notification_id) w.state.userAuth.access_token,
         .consoleError "Error deleting notification:",
         .alert "Failed to delete notification. Please try again."] := by
  simp [deleteNotificationSettled, deleteNotification, deleteNotificationCatch, World.emit]

/-- An element that the predicate rejects survives `dropWhile`. -/
theorem mem_dropWhile_of_false {α : Type} (p : α → Bool) (a : α) (l : List α)
    (ha : a ∈ l) (hp : p a = false) : a ∈ l.dropWhile p := by
  induction l with
  | nil => cases ha
  | cons b l ih =>
    rw [List.dropWhile_cons]
    split
    · rcases List.mem_cons.mp ha with rfl | hmem
      · simp_all
      · exact ih hmem
    · exact ha

/-- The check `!replyText.trim()` of `submitReply` holds exactly for a text made of white
space only. -/
theorem trim_eq_empty_iff (text : String) :
    trim text = "" ↔ ∀ c ∈ text.data, isTrimmed c = true := by
  have hmk : ∀ l : List Char, String.mk l = "" ↔ l = [] := fun l =>
    ⟨fun hl => by simpa using congrArg String.data hl, fun hl => by rw [hl]⟩
  rw [trim, hmk, List.reverse_eq_nil_iff]
  constructor
  · intro hnil c hc
    by_contra hfalse
    have hc1 := mem_dropWhile_of_false isTrimmed c _ hc (by simpa using hfalse)
    have hc2 := mem_dropWhile_of_false isTrimmed c _ (List.mem_reverse.mpr hc1)
      (by simpa using hfalse)
    rw [hnil] at hc2
    cases hc2
  · intro hall
    have h1 : text.data.dropWhile isTrimmed = [] := by
      rw [List.dropWhile_eq_nil_iff]
      exact hall
    rw [h1]
    rfl

/-- The state that the timer callback of a reply leaves when the closure holds a page
result. -/
theorem submitReplyTimeout_state (cl : ViewState) (notification : Notification) (w : World)
    (notifications : PageResult) (h : cl.notifications = some notifications) :
    (submitReplyTimeout cl notification w).state =
      { w.state with
        notifications := some
          { notifications with
            results := notifications.results.map fun n =>
              if n._id = notification._id then
                { n with
                  just_replied := true
                  reply_text := some cl.replyText
                  reply_info := some
                    { username := username cl, timestamp := "2025-04-27 20:24:57" } }
              else n }
        replyingTo := none
        replyText := ""
        replyLoading := false } := by
  simp [submitReplyTimeout, h, setNotifications, setReplyingTo, setReplyText, setReplyLoading,
    showToast, World.update, World.emit]

/-- C7: for every state with a loaded page result, every target notification and every
draft text holding a character that `trim` does not strip, the settled `submitReply` leaves
a list of the same length in which, position by position, an item with the id of the target
has `just_replied = true`, `reply_text` equal to the draft as typed and `reply_info.username`
equal to the current username (its card shows the draft under "Your reply" and no reply
form), and an item with another id is unchanged; `totalDocs` is unchanged; and the reply form
is closed: `replyingTo = null`, empty draft, `replyLoading = false`. -/
theorem submitReply_tags_target (w : World) (notification : Notification)
    (notifications : PageResult) (h : w.state.notifications = some notifications)
    (htext : ∃ c ∈ w.state.replyText.data, isTrimmed c = false) :
    (∃ updated, (submitReplySettled notification w).state.notifications = some updated ∧
      updated.results.length = notifications.results.length ∧
      (∀ (i : Nat) (n : Notification), notifications.results[i]? = some n →
        ∃ m, updated.results[i]? = some m ∧
          (n._id = notification._id →
            m = { n with
                  just_replied := true
                  reply_text := some w.state.replyText
                  reply_info := some
                    { username := username w.state, timestamp := "2025-04-27 20:24:57" } } ∧
            (renderCard (submitReplySettled notification w).state m).yourReply
              = some (some w.state.replyText) ∧
            (renderCard (submitReplySettled notification w).state m).replyForm = none) ∧
          (n._id ≠ notification._id → m = n)) ∧
      updated.totalDocs = notifications.totalDocs ∧ updated.cursor = notifications.cursor) ∧
    (submitReplySettled notification w).state.replyingTo = none ∧
    (submitReplySettled notification w).state.replyText = "" ∧
    (submitReplySettled notification w).state.replyLoading = false := by
  have hne : ¬ trim w.state.replyText = "" := by
    rw [trim_eq_empty_iff]
    obtain ⟨c, hc, hfalse⟩ := htext
    intro hall
    rw [hall c hc] at hfalse
    cases hfalse
  have hst : (submitReplySettled notification w).state =
      (submitReplyTimeout w.state notification (submitReply w)).state := by
    simp [submitReplySettled, hne]
  have hsub : (submitReply w).state = { w.state with replyLoading := true } := by
    simp [submitReply, hne, setReplyLoading, World.update, World.emit]
  rw [hst, submitReplyTimeout_state _ _ _ notifications h, hsub]
  refine ⟨⟨_, rfl, by simp, ?_, rfl, rfl⟩, rfl, rfl, rfl⟩
  intro i n hn
  refine ⟨_, by simp only [List.getElem?_map, hn, Option.map]; rfl, ?_, ?_⟩
  · intro hid
    simp [hid, renderCard]
  · intro hid
    simp [hid]

theorem submitReply_tags_target_witness :
    (sampleWorld.state.notifications = some
        { results := [sampleNotification "n1" false, sampleNotification "n2" false],
          totalDocs := 12, cursor := some 2 } ∧
      ∃ c ∈ sampleWorld.state.replyText.data, isTrimmed c = false) ∧
    (submitReplySettled (sampleNotification "n1" false) sampleWorld).state.replyingTo = none :=
  ⟨⟨rfl, 't', by decide, by decide⟩,
    (submitReply_tags_target sampleWorld (sampleNotification "n1" false) _ rfl
      ⟨'t', by decide, by decide⟩).2.1⟩

/-- C8: for every closure (filter, page, deletion count) and every state the callbacks run
in, when the request of `fetchNotifications` resolves with an empty or absent notification
list, the terminal flag becomes true, the page result becomes
`{ results: [], totalDocs: 0 }`, the loading flag ends false, and the page renders the empty
state, not the loader and not a list of cards. -/
theorem fetch_empty_response_terminal (filterPaginationData : FilterPaginationData)
    (cl : ViewState) (page : Int) (data : Option (List Notification)) (w : World)
    (hdata : data = none ∨ data = some []) :
    (fetchNotificationsSettled filterPaginationData cl page (.resolved data) w
      ).state.allNotificationsDeleted = true ∧
    (fetchNotificationsSettled filterPaginationData cl page (.resolved data) w
      ).state.notifications = some emptyPage ∧
    (fetchNotificationsSettled filterPaginationData cl page (.resolved data) w
      ).state.loading = false ∧
    (render (fetchNotificationsSettled filterPaginationData cl page (.resolved data) w).state
      ).body = .emptyState := by
  rcases hdata with rfl | rfl <;>
    simp [fetchNotificationsSettled, fetchNotificationsThen, fetchNotificationsFinally,
      setAllNotificationsDeleted, setNotifications, setLoading, World.update, render,
      emptyPage]

theorem fetch_empty_response_terminal_witness :
    ((some [] : Option (List Notification)) = none ∨
        (some [] : Option (List Notification)) = some []) ∧
      (render (fetchNotificationsSettled (fun _ => .ok none) browsingWorld.state 2
        (.resolved (some [])) (fetchNotifications 2 1 browsingWorld)).state).body
        = .emptyState :=
  ⟨Or.inr rfl,
    (fetch_empty_response_terminal (fun _ => .ok none) browsingWorld.state 2 (some [])
      (fetchNotifications 2 1 browsingWorld) (Or.inr rfl)).2.2.2⟩

/-- C10, as stated, fails: with a deletion counter of 1, a fetch that fails without any
response from the server (and likewise one answered with status 404) does not move the page
to the terminal state; the flag stays false, the loaded page result stays, and the error
message is set. -/
theorem fetch_failure_with_deletions_not_terminal :
    0 < browsingWorld.state.deletedCount ∧
    (fetchNotificationsSettled (fun _ => .ok none) browsingWorld.state 2
      (.rejected { response := none }) (fetchNotifications 2 1 browsingWorld)
      ).state.allNotificationsDeleted = false ∧
    (fetchNotificationsSettled (fun _ => .ok none) browsingWorld.state 2
      (.rejected { response := none }) (fetchNotifications 2 1 browsingWorld)
      ).state.notifications = browsingWorld.state.notifications ∧
    (fetchNotificationsSettled (fun _ => .ok none) browsingWorld.state 2
      (.rejected { response := none }) (fetchNotifications 2 1 browsingWorld)
      ).state.error = some "Failed to fetch notifications. Please try again later." ∧
    (fetchNotificationsSettled (fun _ => .ok none) browsingWorld.state 2
      (.rejected { response := some 404 }) (fetchNotifications 2 1 browsingWorld)
      ).state.allNotificationsDeleted = false := by
  decide

/-- C10, amended: for every failure of the notifications fetch, if the failure carries a
response with status 500 and the deletion counter is greater than 0, the page moves to the
terminal state (flag true, page result `{ results: [], totalDocs: 0 }`); otherwise the
message "Failed to fetch notifications. Please try again later." is set. -/
theorem fetch_failure_terminal_or_message (filterPaginationData : FilterPaginationData)
    (cl : ViewState) (page : Int) (err : AxiosError) (w : World) :
    (err.response = some 500 ∧ 0 < cl.deletedCount →
      (fetchNotificationsSettled filterPaginationData cl page (.rejected err) w
        ).state.allNotificationsDeleted = true ∧
      (fetchNotificationsSettled filterPaginationData cl page (.rejected err) w
        ).state.notifications = some emptyPage) ∧
    (¬ (err.response = some 500 ∧ 0 < cl.deletedCount) →
      (fetchNotificationsSettled filterPaginationData cl page (.rejected err) w
        ).state.error = some "Failed to fetch notifications. Please try again later.") := by
  constructor
  · intro hterm
    simp [fetchNotificationsSettled, fetchNotificationsCatch, fetchNotificationsFinally,
      hterm.1, hterm.2, setAllNotificationsDeleted, setNotifications, setLoading,
      World.update, World.emit]
  · intro hother
    have hcond : ¬ (err.response = some 500 ∧ cl.deletedCount > 0) := hother
    simp only [fetchNotificationsSettled, fetchNotificationsCatch, fetchNotificationsFinally,
      if_neg hcond]
    simp [setError, setLoading, World.update, World.emit]

theorem fetch_failure_terminal_or_message_witness :
    ((some 500 : Option Nat) = some 500 ∧ 0 < browsingWorld.state.deletedCount) ∧
      (fetchNotificationsSettled (fun _ => .ok none) browsingWorld.state 2
        (.rejected { response := some 500 }) (fetchNotifications 2 1 browsingWorld)
        ).state.allNotificationsDeleted = true :=
  ⟨⟨rfl, by decide⟩,
    ((fetch_failure_terminal_or_message (fun _ => .ok none) browsingWorld.state 2
      { response := some 500 } (fetchNotifications 2 1 browsingWorld)).1 ⟨rfl, by decide⟩).1⟩

/-- The `.then` callback of the fetch, when it completes, never clears the terminal flag,
and writes neither the filter nor the effect log. -/
theorem fetchNotificationsThen_keeps (filterPaginationData : FilterPaginationData)
    (cl : ViewState) (page : Int) (data : Option (List Notification)) (w w1 : World)
    (h : fetchNotificationsThen filterPaginationData cl page data w = .ok w1) :
    (w.state.allNotificationsDeleted = true → w1.state.allNotificationsDeleted = true) ∧
    w1.state.filter = w.state.filter ∧ w1.effects = w.effects := by
  unfold fetchNotificationsThen at h
  split at h
  · cases h
    simp [setAllNotificationsDeleted, setNotifications, World.update]
  · split_ifs at h
    · cases h
      simp [setAllNotificationsDeleted, setNotifications, World.update]
    · split at h
      · cases h
        simp [setNotifications, World.update]
      · cases h

/-- The `.catch` callback of the fetch never clears the terminal flag, does not write the
filter and sends no request. -/
theorem fetchNotificationsCatch_keeps (cl : ViewState) (err : AxiosError) (w : World) :
    (w.state.allNotificationsDeleted = true →
      (fetchNotificationsCatch cl err w).state.allNotificationsDeleted = true) ∧
    (fetchNotificationsCatch cl err w).state.filter = w.state.filter ∧
    (fetchNotificationsCatch cl err w).effects.filter Effect.isFetchRequest
      = w.effects.filter Effect.isFetchRequest := by
  unfold fetchNotificationsCatch
  split_ifs <;>
    simp [setAllNotificationsDeleted, setNotifications, setError, World.update, World.emit,
      Effect.isFetchRequest]

/-- No handler or late callback other than the filter click clears the terminal flag or
writes the filter, and none sends a request to the `/notifications` route. -/
theorem handle_keeps_flag (filterPaginationData : FilterPaginationData) (op : Op) (w : World)
    (hop : op.isFilterSwitch = false) (hflag : w.state.allNotificationsDeleted = true) :
    (handle filterPaginationData op w).state.allNotificationsDeleted = true ∧
    (handle filterPaginationData op w).state.filter = w.state.filter ∧
    (handle filterPaginationData op w).effects.filter Effect.isFetchRequest
      = w.effects.filter Effect.isFetchRequest := by
  cases op with
  | filterClick innerHTML => simp [Op.isFilterSwitch] at hop
  | previousClick => simp [handle, previousPage, setPageWith, World.update, hflag]
  | nextClick => simp [handle, nextPage, setPageWith, World.update, hflag]
  | deleteClick notification_id confirmed =>
    cases confirmed <;>
      simp [handle, deleteNotification, World.emit, hflag, Effect.isFetchRequest]
  | deleteResponse cl notification_id resolved =>
    cases resolved
    · simp [handle, deleteNotificationCatch, World.emit, hflag, Effect.isFetchRequest]
    · simp only [handle, if_true, deleteNotificationThen]
      split
      · split_ifs <;>
          simp [setAllNotificationsDeleted, setNotifications, setDeletedCountWith, setPageWith,
            showToast, World.update, World.emit, hflag, Effect.isFetchRequest]
      · simp [hflag]
  | deleteAllClick confirmed =>
    cases confirmed <;>
      simp [handle, deleteAllNotifications, showToast, World.emit, hflag,
        Effect.isFetchRequest]
  | deleteAllResponse resolved =>
    cases resolved <;>
      simp [handle, deleteAllNotificationsThen, deleteAllNotificationsCatch, showToast,
        setAllNotificationsDeleted, setNotifications, setPage, setDeletedCount, setUserAuth,
        setUserAuthProvided, World.update, World.emit, Effect.isFetchRequest]
  | markAllAsReadClick => simp [handle, markAllAsRead, World.emit, hflag, Effect.isFetchRequest]
  | markAllAsReadResponse cl resolved =>
    cases resolved <;> cases hcl : cl.notifications <;>
      simp [handle, markAllAsReadThen, markAllAsReadCatch, updateUIAfterMarkingRead, hcl,
        showToast, setNotifications, setUserAuth, setUserAuthProvided, sessionSetItem,
        World.update, World.emit, hflag, Effect.isFetchRequest]
  | replyClick notification =>
    simp only [handle, handleReply]
    split_ifs <;> simp [setReplyingTo, setReplyText, World.update, hflag]
  | replyInput value => simp [handle, setReplyText, World.update, hflag]
  | postReplyClick =>
    simp only [handle, submitReply]
    split_ifs <;> simp [setReplyLoading, World.update, World.emit, hflag, Effect.isFetchRequest]
  | replyTimer cl notification =>
    cases hcl : cl.notifications <;>
      simp [handle, submitReplyTimeout, hcl, showToast, setNotifications, setReplyingTo,
        setReplyText, setReplyLoading, World.update, World.emit, hflag, Effect.isFetchRequest]
  | fetchResponse cl page outcome =>
    simp only [handle, fetchNotificationsSettled, fetchNotificationsFinally]
    cases outcome with
    | rejected err =>
      have hc := fetchNotificationsCatch_keeps cl err w
      simp [setLoading, World.update, hc.1 hflag, hc.2.1, hc.2.2]
    | resolved data =>
      cases hthen : fetchNotificationsThen filterPaginationData cl page data w with
      | error err =>
        have hc := fetchNotificationsCatch_keeps cl err w
        simp [hthen, setLoading, World.update, hc.1 hflag, hc.2.1, hc.2.2]
      | ok w1 =>
        have hc := fetchNotificationsThen_keeps filterPaginationData cl page data w w1 hthen
        simp [hthen, setLoading, World.update, hc.1 hflag, hc.2.1, hc.2.2]
  | userAuthChange userAuth => simp [handle, World.update, hflag]

/-- With the terminal flag set and the filter as in the previous render, the effects that
follow a render keep the flag and the filter and send no request to the `/notifications`
route. -/
theorem commit_keeps_flag (prev : ViewState) (w : World)
    (hflag : w.state.allNotificationsDeleted = true) (hfilter : prev.filter = w.state.filter) :
    (commit prev w).state.allNotificationsDeleted = true ∧
    (commit prev w).state.filter = w.state.filter ∧
    (commit prev w).effects.filter Effect.isFetchRequest
      = w.effects.filter Effect.isFetchRequest := by
  simp only [commit, fetchEffect, fetchNotifications, focusEffect, hflag, hfilter]
  split_ifs <;>
    simp_all [setNotifications, setLoading, World.update, World.emit, Effect.isFetchRequest]

/-- One event other than a filter click, started with the terminal flag set, keeps the flag
and the filter and sends no request to the `/notifications` route. -/
theorem step_keeps_flag (filterPaginationData : FilterPaginationData) (op : Op) (w : World)
    (hop : op.isFilterSwitch = false) (hflag : w.state.allNotificationsDeleted = true) :
    (step filterPaginationData w op).state.allNotificationsDeleted = true ∧
    (step filterPaginationData w op).effects.filter Effect.isFetchRequest
      = w.effects.filter Effect.isFetchRequest := by
  have hh := handle_keeps_flag filterPaginationData op w hop hflag
  have hc := commit_keeps_flag w.state (handle filterPaginationData op w) hh.1 hh.2.1.symm
  exact ⟨hc.1, hc.2.2.trans hh.2.2⟩

/-- A run without filter clicks, started with the terminal flag set, ends with the flag set
and has sent no request to the `/notifications` route. -/
theorem run_keeps_flag (filterPaginationData : FilterPaginationData) (ops : List Op) :
    ∀ w : World, w.state.allNotificationsDeleted = true →
      (∀ op ∈ ops, op.isFilterSwitch = false) →
      (run filterPaginationData w ops).state.allNotificationsDeleted = true ∧
      (run filterPaginationData w ops).effects.filter Effect.isFetchRequest
        = w.effects.filter Effect.isFetchRequest := by
  induction ops with
  | nil => intro w hflag _; exact ⟨hflag, rfl⟩
  | cons op ops ih =>
    intro w hflag hops
    have hs := step_keeps_flag filterPaginationData op w (hops op (List.mem_cons_self _ _)) hflag
    have hr := ih (step filterPaginationData w op) hs.1
      (fun o ho => hops o (List.mem_cons_of_mem _ ho))
    exact ⟨hr.1, hr.2.trans hs.2⟩

/-- C9: once the terminal flag is true, after every sequence of events that holds no filter
click (previous and next page, delete-one, delete-all, mark-all-as-read, reply, and the late
callbacks of requests and timers, each followed by the effects of its render) the flag is
still true and no request to the `/notifications` route has been sent; and a call of
`fetchNotifications` there sends nothing and only sets the page result to
`{ results: [], totalDocs: 0 }` and loading to false. -/
theorem terminal_flag_stays (filterPaginationData : FilterPaginationData) (w : World)
    (ops : List Op) (hflag : w.state.allNotificationsDeleted = true)
    (hops : ∀ op ∈ ops, op.isFilterSwitch = false) :
    (run filterPaginationData w ops).state.allNotificationsDeleted = true ∧
    (run filterPaginationData w ops).effects.filter Effect.isFetchRequest
      = w.effects.filter Effect.isFetchRequest ∧
    ∀ (page : Int) (deletedDocCount : Nat),
      (fetchNotifications page deletedDocCount (run filterPaginationData w ops)).effects
        = (run filterPaginationData w ops).effects ∧
      (fetchNotifications page deletedDocCount (run filterPaginationData w ops)).state
        = { (run filterPaginationData w ops).state with
            notifications := some emptyPage, loading := false } := by
  have hr := run_keeps_flag filterPaginationData ops w hflag hops
  refine ⟨hr.1, hr.2, fun page deletedDocCount => ?_⟩
  simp [fetchNotifications, hr.1, setNotifications, setLoading, World.update]

theorem terminal_flag_stays_witness :
    (sampleWorld.state.allNotificationsDeleted = true ∧
      ∀ op ∈ [Op.nextClick, Op.deleteResponse sampleState "n1" true,
          Op.fetchResponse sampleState 2 (.resolved (some [sampleNotification "n3" false])),
          Op.previousClick],
        op.isFilterSwitch = false) ∧
    (run (fun _ => .ok none) sampleWorld
      [Op.nextClick, Op.deleteResponse sampleState "n1" true,
        Op.fetchResponse sampleState 2 (.resolved (some [sampleNotification "n3" false])),
        Op.previousClick]).state.allNotificationsDeleted = true :=
  ⟨⟨rfl, by decide⟩,
    (terminal_flag_stays (fun _ => .ok none) sampleWorld _ rfl (by decide)).1⟩

/-- C11: a failed notifications fetch, from the call that sent the request to the end of
its callbacks, is treated as no more data (terminal flag set, page result
`{ results: [], totalDocs: 0 }`, no error message) if and only if the failure carries a
response with status 500 and the deletion counter is greater than 0; for every other
failure the terminal flag and the page result are as before the call and the error message
is set. -/
theorem fetch_failure_terminal_iff (filterPaginationData : FilterPaginationData) (w : World)
    (page : Int) (deletedDocCount : Nat) (err : AxiosError)
    (hsent : w.state.allNotificationsDeleted = false) :
    (((fetchNotificationsSettled filterPaginationData w.state page (.rejected err)
          (fetchNotifications page deletedDocCount w)).state.allNotificationsDeleted = true ∧
        (fetchNotificationsSettled filterPaginationData w.state page (.rejected err)
          (fetchNotifications page deletedDocCount w)).state.notifications = some emptyPage ∧
        (fetchNotificationsSettled filterPaginationData w.state page (.rejected err)
          (fetchNotifications page deletedDocCount w)).state.error = none) ↔
      (err.response = some 500 ∧ 0 < w.state.deletedCount)) ∧
    (¬ (err.response = some 500 ∧ 0 < w.state.deletedCount) →
      (fetchNotificationsSettled filterPaginationData w.state page (.rejected err)
        (fetchNotifications page deletedDocCount w)).state.allNotificationsDeleted
          = w.state.allNotificationsDeleted ∧
      (fetchNotificationsSettled filterPaginationData w.state page (.rejected err)
        (fetchNotifications page deletedDocCount w)).state.notifications
          = w.state.notifications ∧
      (fetchNotificationsSettled filterPaginationData w.state page (.rejected err)
        (fetchNotifications page deletedDocCount w)).state.error
          = some "Failed to fetch notifications. Please try again later.") := by
  by_cases hcond : err.response = some 500 ∧ w.state.deletedCount > 0
  · have hst : (fetchNotificationsSettled filterPaginationData w.state page (.rejected err)
        (fetchNotifications page deletedDocCount w)).state =
        { w.state with
          allNotificationsDeleted := true, notifications := some emptyPage, loading := false,
          error := none } := by
      simp only [fetchNotificationsSettled, fetchNotificationsCatch, fetchNotificationsFinally,
        fetchNotifications, hsent, if_pos hcond]
      simp [setAllNotificationsDeleted, setNotifications, setLoading, setError, World.update,
        World.emit]
    rw [hst]
    exact ⟨⟨fun _ => hcond, fun _ => ⟨rfl, rfl, rfl⟩⟩, fun hno => absurd hcond hno⟩
  · have hst : (fetchNotificationsSettled filterPaginationData w.state page (.rejected err)
        (fetchNotifications page deletedDocCount w)).state =
        { w.state with
          loading := false
          error := some "Failed to fetch notifications. Please try again later." } := by
      simp only [fetchNotificationsSettled, fetchNotificationsCatch, fetchNotificationsFinally,
        fetchNotifications, hsent, if_neg hcond]
      simp [setLoading, setError, World.update, World.emit, hsent]
    rw [hst]
    refine ⟨⟨fun hterm => ?_, fun h => absurd h hcond⟩, fun _ => ⟨rfl, rfl, rfl⟩⟩
    have herr := hterm.2.2
    simp at herr

theorem fetch_failure_terminal_iff_witness :
    browsingWorld.state.allNotificationsDeleted = false ∧
      (((fetchNotificationsSettled (fun _ => .ok none) browsingWorld.state 2
          (.rejected { response := some 500 })
          (fetchNotifications 2 1 browsingWorld)).state.allNotificationsDeleted = true ∧
        (fetchNotificationsSettled (fun _ => .ok none) browsingWorld.state 2
          (.rejected { response := some 500 })
          (fetchNotifications 2 1 browsingWorld)).state.notifications = some emptyPage ∧
        (fetchNotificationsSettled (fun _ => .ok none) browsingWorld.state 2
          (.rejected { response := some 500 })
          (fetchNotifications 2 1 browsingWorld)).state.error = none) ↔
      ((some 500 : Option Nat) = some 500 ∧ 0 < browsingWorld.state.deletedCount)) :=
  ⟨rfl,
    (fetch_failure_terminal_iff (fun _ => .ok none) browsingWorld 2 1 { response := some 500 }
      rfl).1⟩

/-- C12: for every state with a non-empty loaded list, the page renders the list view with
exactly one card per item, in order (card `i` deletes item `i`), the Previous control is
disabled if and only if the page is 1, and the Next control is disabled if and only if the
list holds fewer than 10 items; in particular on page 1 with a 2-item list it renders 2
cards with Previous and Next both disabled. -/
theorem render_cards_and_controls (s : ViewState) (notifications : PageResult)
    (h : s.notifications = some notifications) (hne : notifications.results ≠ []) :
    ∃ cards previousDisabled nextDisabled,
      (render s).body = .list cards previousDisabled nextDisabled ∧
      cards.length = notifications.results.length ∧
      (∀ (i : Nat) (n : Notification), notifications.results[i]? = some n →
        cards[i]? = some (renderCard s n) ∧ (renderCard s n).deleteTarget = n._id) ∧
      (previousDisabled = true ↔ s.page = 1) ∧
      (nextDisabled = true ↔ notifications.results.length < 10) ∧
      (s.page = 1 → notifications.results.length = 2 →
        cards.length = 2 ∧ previousDisabled = true ∧ nextDisabled = true) := by
  have hlen : notifications.results.length > 0 := List.length_pos.mpr hne
  refine ⟨notifications.results.map (renderCard s), decide (s.page = 1),
    decide (notifications.results.length < 10), ?_, by simp, ?_, by simp, by simp, ?_⟩
  · simp [render, h, hlen]
  · intro i n hn
    simp [List.getElem?_map, hn, renderCard]
  · intro hpage hlen2
    simp [hpage, hlen2]

theorem render_cards_and_controls_witness :
    (scenarioState.notifications = some
        { results := [sampleNotification "n1" false, sampleNotification "n2" false],
          totalDocs := 12, cursor := some 2 } ∧
      [sampleNotification "n1" false, sampleNotification "n2" false] ≠ []) ∧
    ∃ cards previousDisabled nextDisabled,
      (render scenarioState).body = .list cards previousDisabled nextDisabled ∧
      cards.length = 2 :=
  ⟨⟨rfl, by decide⟩,
    match render_cards_and_controls scenarioState _ rfl (by decide) with
    | ⟨cards, previousDisabled, nextDisabled, hbody, hlen, _⟩ =>
      ⟨cards, previousDisabled, nextDisabled, hbody, hlen⟩⟩

/-- C13: `updateUIAfterMarkingRead` is idempotent: applied again, on the render that
follows or from the same closure, it gives the same world as applied once. One application
writes the page result, the global unread flag and the session entry and no other cell; it
keeps the page result absent when it was absent, and otherwise keeps the length and the
order of the list, `totalDocs` and the rest of the object, and every field of every
notification other than `read`, which becomes true. -/
theorem updateUIAfterMarkingRead_idempotent (cl : ViewState) (w : World) :
    updateUIAfterMarkingRead (updateUIAfterMarkingRead w.state w).state
        (updateUIAfterMarkingRead w.state w) = updateUIAfterMarkingRead w.state w ∧
    updateUIAfterMarkingRead cl (updateUIAfterMarkingRead cl w)
      = updateUIAfterMarkingRead cl w ∧
    (updateUIAfterMarkingRead w.state w).state =
      { w.state with
        notifications := (updateUIAfterMarkingRead w.state w).state.notifications
        userAuth := { w.state.userAuth with new_notification_available := false }
        sessionStorage := (updateUIAfterMarkingRead w.state w).state.sessionStorage } ∧
    (w.state.notifications = none →
      (updateUIAfterMarkingRead w.state w).state.notifications = none) ∧
    (∀ notifications, w.state.notifications = some notifications →
      ∃ updated, (updateUIAfterMarkingRead w.state w).state.notifications = some updated ∧
        updated.results.length = notifications.results.length ∧
        (∀ (i : Nat) (n : Notification), notifications.results[i]? = some n →
          updated.results[i]? = some { n with read := true }) ∧
        updated.totalDocs = notifications.totalDocs ∧
        updated.cursor = notifications.cursor) := by
  have hfilter : ∀ l : List (String × String),
      List.filter (fun kv => decide (kv.1 ≠ "new_notification_available"))
        (List.filter (fun kv => decide (kv.1 ≠ "new_notification_available")) l)
      = List.filter (fun kv => decide (kv.1 ≠ "new_notification_available")) l := by
    intro l
    rw [List.filter_filter]
    simp
  refine ⟨?_, ?_, ?_, ?_, ?_⟩
  · cases hn : w.state.notifications <;>
      simp [updateUIAfterMarkingRead, hn, setNotifications, setUserAuth, setUserAuthProvided,
        sessionSetItem, World.update, hfilter]
  · cases hn : cl.notifications <;>
      simp [updateUIAfterMarkingRead, hn, setNotifications, setUserAuth, setUserAuthProvided,
        sessionSetItem, World.update, hfilter]
  · cases hn : w.state.notifications <;>
      simp [updateUIAfterMarkingRead, hn, setNotifications, setUserAuth, setUserAuthProvided,
        sessionSetItem, World.update]
  · intro hn
    simp [updateUIAfterMarkingRead, hn, setUserAuth, setUserAuthProvided, sessionSetItem,
      World.update]
  · intro notifications hn
    rw [updateUIAfterMarkingRead_state w.state w notifications hn]
    refine ⟨_, rfl, by simp, ?_, rfl, rfl⟩
    intro i n hi
    simp [List.getElem?_map, hi]

theorem updateUIAfterMarkingRead_idempotent_witness :
    sampleWorld.state.notifications = some
        { results := [sampleNotification "n1" false, sampleNotification "n2" false],
          totalDocs := 12, cursor := some 2 } ∧
      ∃ updated,
        (updateUIAfterMarkingRead sampleWorld.state sampleWorld).state.notifications
          = some updated ∧
        updated.results.length = 2 :=
  ⟨rfl,
    match (updateUIAfterMarkingRead_idempotent sampleState sampleWorld).2.2.2.2 _ rfl with
    | ⟨updated, hupd, hlen, _⟩ => ⟨updated, hupd, hlen⟩⟩

/-- Each operation that writes the page, when it runs on the render that started it with
nothing in between, keeps a page that is at least 1 at least 1, and Previous at page 1
leaves the page at 1. -/
theorem page_ge_one_of_settled (w : World) (hpage : 1 ≤ w.state.page) :
    (∀ label, (handleFilter label w).state.page = 1) ∧
    1 ≤ (previousPage w).state.page ∧
    (w.state.page = 1 → (previousPage w).state.page = 1) ∧
    1 ≤ (nextPage w).state.page ∧
    (∀ notification_id confirmed resolved,
      1 ≤ (deleteNotificationSettled notification_id confirmed resolved w).state.page) ∧
    (∀ confirmed resolved, 1 ≤ (deleteAllNotificationsSettled confirmed resolved w).state.page)
    := by
  refine ⟨?_, ?_, ?_, ?_, ?_, ?_⟩
  · intro label
    simp [handleFilter, setFilter, setNotifications, setPage, setDeletedCount,
      setAllNotificationsDeleted, World.update]
  · simp [previousPage, setPageWith, World.update]
  · intro h1
    simp [previousPage, setPageWith, World.update, h1]
  · simp only [nextPage, setPageWith, World.update]
    omega
  · intro notification_id confirmed resolved
    cases confirmed
    · simpa [deleteNotificationSettled, deleteNotification, World.emit] using hpage
    · cases resolved
      · simpa [deleteNotificationSettled, deleteNotification, deleteNotificationCatch,
          World.emit] using hpage
      · have hst : (deleteNotificationSettled notification_id true true w).state =
            (deleteNotificationThen w.state notification_id
              (deleteNotification notification_id true w)).state := by
          simp [deleteNotificationSettled]
        rw [hst]
        cases hn : w.state.notifications with
        | none =>
          simpa [deleteNotificationThen, hn, deleteNotification, World.emit] using hpage
        | some notifications =>
          rw [deleteNotificationThen_state _ _ _ notifications hn, deleteNotification_state]
          simp only
          split_ifs with hboth
          · have := hboth.2
            omega
          · exact hpage
  · intro confirmed resolved
    cases confirmed <;> cases resolved <;>
      simp [deleteAllNotificationsSettled, deleteAllNotifications, deleteAllNotificationsThen,
        deleteAllNotificationsCatch, showToast, setAllNotificationsDeleted, setNotifications,
        setPage, setDeletedCount, setUserAuth, setUserAuthProvided, World.update, World.emit,
        hpage]

/-- C14, evaluated on a run from the first render: on page 2 with the single notification
`n10` left, the user confirms its deletion and clicks Previous before the request resolves;
the page is then 1, and the callback of the delete, whose closure still holds page 2, steps
the page back to 0. -/
theorem page_zero_after_late_delete :
    lastItemOnPageTwo.state.page = 2 ∧
    lastItemOnPageTwo.state.notifications.map (fun p => p.results.map fun n => n._id)
      = some ["n10"] ∧
    (run mergingHelper lastItemOnPageTwo
      [.deleteClick "n10" true, .previousClick]).state.page = 1 ∧
    (run mergingHelper lastItemOnPageTwo
      [.deleteClick "n10" true, .previousClick,
        .deleteResponse lastItemOnPageTwo.state "n10" true]).state.page = 0 := by
  decide

/-- C15: for every state with a loaded page result, a successful delete-one that leaves
the list empty sets the terminal flag, whatever the page and `totalDocs` are. When the page
is beyond 1, the render that follows has the page one lower and runs the fetch effect, and
that effect sends nothing: the effect log is the one the delete left, the flag is still
set, and the page shows the empty state; when the user has an access token the effect is
the call of `fetchNotifications` for the lower page, which returns before the request and
stores `{ results: [], totalDocs: 0 }` with loading false. -/
theorem deleteNotification_last_item_terminal (w : World) (notification_id : String)
    (notifications : PageResult) (h : w.state.notifications = some notifications)
    (hlast : notifications.results.filter (fun n => n._id ≠ notification_id) = []) :
    (deleteNotificationSettled notification_id true true w).state.allNotificationsDeleted
      = true ∧
    (1 < w.state.page →
      commit w.state (deleteNotificationSettled notification_id true true w)
        = fetchEffect (deleteNotificationSettled notification_id true true w) ∧
      (commit w.state (deleteNotificationSettled notification_id true true w)).state.page
        = w.state.page - 1 ∧
      (commit w.state (deleteNotificationSettled notification_id true true w)).effects
        = (deleteNotificationSettled notification_id true true w).effects ∧
      (commit w.state (deleteNotificationSettled notification_id true true w)
        ).state.allNotificationsDeleted = true ∧
      (render (commit w.state (deleteNotificationSettled notification_id true true w)).state
        ).body = .emptyState ∧
      (truthy w.state.userAuth.access_token = true →
        commit w.state (deleteNotificationSettled notification_id true true w)
          = fetchNotifications (w.state.page - 1) (w.state.deletedCount + 1)
              (deleteNotificationSettled notification_id true true w) ∧
        (commit w.state (deleteNotificationSettled notification_id true true w)
          ).state.notifications = some emptyPage ∧
        (commit w.state (deleteNotificationSettled notification_id true true w)
          ).state.loading = false)) := by
  have hst : (deleteNotificationSettled notification_id true true w).state =
      (deleteNotificationThen w.state notification_id
        (deleteNotification notification_id true w)).state := by
    simp [deleteNotificationSettled]
  rw [deleteNotificationThen_state _ _ _ notifications h, deleteNotification_state, hlast]
    at hst
  refine ⟨by rw [hst]; rfl, fun hpage => ?_⟩
  have hst2 : (deleteNotificationSettled notification_id true true w).state =
      { w.state with
        allNotificationsDeleted := true
        notifications := some
          { notifications with
            results := []
            totalDocs :=
              if notifications.totalDocs > 0 then notifications.totalDocs - 1 else 0 }
        deletedCount := w.state.deletedCount + 1
        page := w.state.page - 1 } := by
    rw [hst]
    simp [hpage]
  have hdeps : fetchDeps w.state
      ≠ fetchDeps (deleteNotificationSettled notification_id true true w).state := by
    rw [hst2]
    simp [fetchDeps]
  have hcommit : commit w.state (deleteNotificationSettled notification_id true true w)
      = fetchEffect (deleteNotificationSettled notification_id true true w) := by
    simp only [commit, if_pos hdeps]
    simp [hst2]
  refine ⟨hcommit, ?_⟩
  rw [hcommit]
  by_cases htoken : truthy w.state.userAuth.access_token = true
  · have hfetch : fetchEffect (deleteNotificationSettled notification_id true true w)
        = fetchNotifications (w.state.page - 1) (w.state.deletedCount + 1)
            (deleteNotificationSettled notification_id true true w) := by
      simp [fetchEffect, hst2, htoken]
    rw [hfetch]
    simp [fetchNotifications, hst2, setNotifications, setLoading, World.update, render,
      emptyPage]
  · simp [fetchEffect, hst2, htoken, render]

theorem deleteNotification_last_item_terminal_witness :
    (lastItemOpenWorld.state.notifications = some
        { results := [sampleNotification "n1" false], totalDocs := 11, cursor := some 2 } ∧
      [sampleNotification "n1" false].filter (fun n => n._id ≠ "n1") = [] ∧
      1 < lastItemOpenWorld.state.page) ∧
    (deleteNotificationSettled "n1" true true lastItemOpenWorld).state.allNotificationsDeleted
      = true ∧
    (render (commit lastItemOpenWorld.state
      (deleteNotificationSettled "n1" true true lastItemOpenWorld)).state).body
      = .emptyState :=
  ⟨⟨rfl, by decide, by decide⟩,
    (deleteNotification_last_item_terminal lastItemOpenWorld "n1" _ rfl (by decide)).1,
    ((deleteNotification_last_item_terminal lastItemOpenWorld "n1" _ rfl (by decide)).2
      (by decide)).2.2.2.2.1⟩

end Notifications
